import Mathlib

/-!
Verification of the OpAMP client callback layer and session-engine contracts.

The Go package under study contains:
  * the supervisor config file types (`config.Supervisor` etc.),
  * two HTTP client integration tests (`TestHTTPPolling`, `TestHTTPClientCompression`),
  * the `types.Callbacks` interface and the `types.CallbacksStruct` adapter,
    whose methods default every unset function-valued field to a no-op.

Go side effects of a callback are embedded as an explicit `Effect` trace value
returned by the (pure) Lean counterpart; a Go function returning nothing is a
Lean function returning `Effect`.  A Go `error` result is `Option Err` with
`none` standing for the nil error; a nilable protobuf pointer is an `Option`.
Components of the repository that are only documented or tested here (the
sequencer, the callback dispatcher, the transport) are modelled from the spec,
as marked on each of their definitions.
-/

/-- Observable actions performed by a callback, standing in for Go side effects. -/
abbrev Effect := List Nat

/-- Stand-in for Go `context.Context` (opaque cancellation token). -/
abbrev Ctx := Nat

/-- Stand-in for a non-nil Go `error` value. -/
abbrev Err := String

/-- A Go `error` result: `none` is the nil error. -/
abbrev GoError := Option Err

/-- Opaque stand-in for `protobufs.AgentRemoteConfig` (content is opaque to this layer). -/
structure AgentRemoteConfig where
  val : Nat
  deriving DecidableEq, Repr

/-- Opaque stand-in for `protobufs.EffectiveConfig`. -/
structure EffectiveConfig where
  val : Nat
  deriving DecidableEq, Repr

/-- Opaque stand-in for `protobufs.RemoteConfigStatus`. -/
structure RemoteConfigStatus where
  val : Nat
  deriving DecidableEq, Repr

/-- Opaque stand-in for `protobufs.ConnectionSettings`. -/
structure ConnectionSettings where
  val : Nat
  deriving DecidableEq, Repr

/-- Opaque stand-in for `protobufs.PackagesAvailable`. -/
structure PackagesAvailable where
  val : Nat
  deriving DecidableEq, Repr

/-- Opaque stand-in for `protobufs.AgentIdentification`. -/
structure AgentIdentification where
  newInstanceUid : Nat
  deriving DecidableEq, Repr

/-- Opaque stand-in for `protobufs.ServerToAgentCommand`. -/
structure ServerToAgentCommand where
  val : Nat
  deriving DecidableEq, Repr

/-- Opaque stand-in for the `types.PackagesSyncer` handle. -/
structure PackagesSyncer where
  val : Nat
  deriving DecidableEq, Repr

/-- Classification of a `protobufs.ServerErrorResponse` (`ErrorResponseType`). -/
inductive ServerErrorResponseType where
  | unknown
  | badRequest
  | unavailable
  deriving DecidableEq, Repr

/-- Stand-in for `protobufs.ServerErrorResponse`. -/
structure ServerErrorResponse where
  t : ServerErrorResponseType
  details : Nat
  deriving DecidableEq, Repr

/-- `types.OwnTelemetryType` with its three constants `OwnMetrics`, `OwnTraces`, `OwnLogs`. -/
inductive OwnTelemetryType where
  | ownMetrics
  | ownTraces
  | ownLogs
  deriving DecidableEq, Repr

/-- `types.CallbacksStruct`: a structure of independently optional function-valued
fields.  Each field is `none` exactly when the Go field is the nil function;
defaults mirror the Go zero value of the struct.  A Go callback that returns
nothing is embedded as returning its `Effect` trace; value-returning callbacks
return their `Effect` trace paired with their Go results. -/
structure CallbacksStruct where
  OnConnectFunc : Option (Unit → Effect) := none
  OnConnectFailedFunc : Option (Err → Effect) := none
  OnErrorFunc : Option (ServerErrorResponse → Effect) := none
  OnRemoteConfigFunc :
    Option (Ctx → AgentRemoteConfig → Effect × Option EffectiveConfig × Bool × GoError) := none
  SaveRemoteConfigStatusFunc : Option (Ctx → RemoteConfigStatus → Effect) := none
  GetEffectiveConfigFunc : Option (Ctx → Effect × Option EffectiveConfig × GoError) := none
  OnOpampConnectionSettingsFunc : Option (Ctx → ConnectionSettings → Effect × GoError) := none
  OnOpampConnectionSettingsAcceptedFunc : Option (ConnectionSettings → Effect) := none
  OnOwnTelemetryConnectionSettingsFunc :
    Option (Ctx → OwnTelemetryType → ConnectionSettings → Effect × GoError) := none
  OnOtherConnectionSettingsFunc :
    Option (Ctx → String → ConnectionSettings → Effect × GoError) := none
  OnPackagesAvailableFunc :
    Option (Ctx → PackagesAvailable → PackagesSyncer → Effect × GoError) := none
  OnAgentIdentificationFunc : Option (Ctx → AgentIdentification → Effect × GoError) := none
  OnCommandFunc : Option (ServerToAgentCommand → Effect × GoError) := none

/-- `func (c CallbacksStruct) OnConnect()`. -/
def CallbacksStruct.OnConnect (c : CallbacksStruct) : Effect :=
  match c.OnConnectFunc with
  | some f => f ()
  | none => []

/-- `func (c CallbacksStruct) OnConnectFailed(err error)`. -/
def CallbacksStruct.OnConnectFailed (c : CallbacksStruct) (err : Err) : Effect :=
  match c.OnConnectFailedFunc with
  | some f => f err
  | none => []

/-- `func (c CallbacksStruct) OnError(err *protobufs.ServerErrorResponse)`. -/
def CallbacksStruct.OnError (c : CallbacksStruct) (err : ServerErrorResponse) : Effect :=
  match c.OnErrorFunc with
  | some f => f err
  | none => []

/-- `func (c CallbacksStruct) OnRemoteConfig(ctx, remoteConfig)`: forwards when the
field is set; otherwise returns `nil, false, nil` with no call performed. -/
def CallbacksStruct.OnRemoteConfig (c : CallbacksStruct) (ctx : Ctx)
    (remoteConfig : AgentRemoteConfig) : Effect × Option EffectiveConfig × Bool × GoError :=
  match c.OnRemoteConfigFunc with
  | some f => f ctx remoteConfig
  | none => ([], none, false, none)

/-- `func (c CallbacksStruct) SaveRemoteConfigStatus(ctx, status)`. -/
def CallbacksStruct.SaveRemoteConfigStatus (c : CallbacksStruct) (ctx : Ctx)
    (status : RemoteConfigStatus) : Effect :=
  match c.SaveRemoteConfigStatusFunc with
  | some f => f ctx status
  | none => []

/-- `func (c CallbacksStruct) GetEffectiveConfig(ctx)`: forwards when the field is
set; otherwise returns `nil, nil` with no call performed. -/
def CallbacksStruct.GetEffectiveConfig (c : CallbacksStruct) (ctx : Ctx) :
    Effect × Option EffectiveConfig × GoError :=
  match c.GetEffectiveConfigFunc with
  | some f => f ctx
  | none => ([], none, none)

/-- `func (c CallbacksStruct) OnOpampConnectionSettings(ctx, settings)`. -/
def CallbacksStruct.OnOpampConnectionSettings (c : CallbacksStruct) (ctx : Ctx)
    (settings : ConnectionSettings) : Effect × GoError :=
  match c.OnOpampConnectionSettingsFunc with
  | some f => f ctx settings
  | none => ([], none)

/-- `func (c CallbacksStruct) OnOpampConnectionSettingsAccepted(settings)`. -/
def CallbacksStruct.OnOpampConnectionSettingsAccepted (c : CallbacksStruct)
    (settings : ConnectionSettings) : Effect :=
  match c.OnOpampConnectionSettingsAcceptedFunc with
  | some f => f settings
  | none => []

/-- `func (c CallbacksStruct) OnOwnTelemetryConnectionSettings(ctx, telemetryType, settings)`. -/
def CallbacksStruct.OnOwnTelemetryConnectionSettings (c : CallbacksStruct) (ctx : Ctx)
    (telemetryType : OwnTelemetryType) (settings : ConnectionSettings) : Effect × GoError :=
  match c.OnOwnTelemetryConnectionSettingsFunc with
  | some f => f ctx telemetryType settings
  | none => ([], none)

/-- `func (c CallbacksStruct) OnOtherConnectionSettings(ctx, name, settings)`. -/
def CallbacksStruct.OnOtherConnectionSettings (c : CallbacksStruct) (ctx : Ctx)
    (name : String) (settings : ConnectionSettings) : Effect × GoError :=
  match c.OnOtherConnectionSettingsFunc with
  | some f => f ctx name settings
  | none => ([], none)

/-- `func (c CallbacksStruct) OnPackagesAvailable(ctx, packages, syncer)`. -/
def CallbacksStruct.OnPackagesAvailable (c : CallbacksStruct) (ctx : Ctx)
    (packages : PackagesAvailable) (syncer : PackagesSyncer) : Effect × GoError :=
  match c.OnPackagesAvailableFunc with
  | some f => f ctx packages syncer
  | none => ([], none)

/-- `func (c CallbacksStruct) OnAgentIdentification(ctx, agentId)`. -/
def CallbacksStruct.OnAgentIdentification (c : CallbacksStruct) (ctx : Ctx)
    (agentId : AgentIdentification) : Effect × GoError :=
  match c.OnAgentIdentificationFunc with
  | some f => f ctx agentId
  | none => ([], none)

/-- `func (c CallbacksStruct) OnCommand(command)`. -/
def CallbacksStruct.OnCommand (c : CallbacksStruct) (command : ServerToAgentCommand) :
    Effect × GoError :=
  match c.OnCommandFunc with
  | some f => f command
  | none => ([], none)

/-! ### Callback dispatcher slot (modelled from the spec)

The dispatcher itself is not among the given sources; only the contract on
`Callbacks.OnRemoteConfig` documents it ("Only one OnRemoteConfig call can be
active at any time. ... Any other remote configs received ... will be
remembered. Once OnRemoteConfig call returns it will be called again with the
most recent remote config received."). -/

/-- Modelled from the spec: the per-slot state machine of the Callback
Dispatcher (idle / in-flight / in-flight-with-pending), for any slot carrying
server-supplied state.  `α` is the payload type of the slot (for the
remote-config slot, `AgentRemoteConfig`). -/
inductive SlotState (α : Type) where
  | idle
  | inFlight (current : α)
  | inFlightPending (current : α) (pending : α)
  deriving DecidableEq, Repr

/-- Events seen by one dispatcher slot: a payload arriving from the server, or
the in-flight handler invocation returning. -/
inductive SlotEvent (α : Type) where
  | recv (payload : α)
  | complete
  deriving DecidableEq, Repr

/-- Modelled from the spec: one step of the slot state machine.  Returns the
new state together with the payloads of the handler invocations started by
this step.  A payload arriving while a call is in flight overwrites any
pending payload (last-write-wins); a completion with a pending payload starts
exactly one further invocation carrying that payload. -/
def slotStep {α : Type} : SlotState α → SlotEvent α → SlotState α × List α
  | .idle, .recv p => (.inFlight p, [p])
  | .inFlight c, .recv p => (.inFlightPending c p, [])
  | .inFlightPending c _, .recv p => (.inFlightPending c p, [])
  | .idle, .complete => (.idle, [])
  | .inFlight _, .complete => (.idle, [])
  | .inFlightPending _ p, .complete => (.inFlight p, [p])

/-- Run a slot over a list of events, accumulating started invocations. -/
def slotRun {α : Type} (s : SlotState α) : List (SlotEvent α) → SlotState α × List α
  | [] => (s, [])
  | e :: es =>
    let (s2, started) := slotStep s e
    let (s3, rest) := slotRun s2 es
    (s3, started ++ rest)

/-- Number of handler invocations active in a slot state. -/
def SlotState.activeCount {α : Type} : SlotState α → Nat
  | .idle => 0
  | .inFlight _ => 1
  | .inFlightPending _ _ => 1

/-! ### Sequencer and Session (modelled from the spec)

The sequencer is not among the given sources; `TestHTTPPolling` evidences its
contract by asserting that received sequence numbers are contiguous from 0. -/

/-- Modelled from the spec: the Session state owned by the Session Engine; the
part the sequencing claims need is the monotonic sequence counter, starting
at 0 for a newly created Session. -/
structure Session where
  seqCounter : Nat
  deriving DecidableEq, Repr

/-- Modelled from the spec: creating a new Session resets the counter to 0. -/
def newSession : Session := { seqCounter := 0 }

/-- Modelled from the spec: Sequencer contract `next() → integer`; returns the
current counter and advances it by one. -/
def Session.next (s : Session) : Nat × Session :=
  (s.seqCounter, { seqCounter := s.seqCounter + 1 })

/-- The sequence numbers attached to `n` successive outbound Agent Reports of
a Session, one call to `Session.next` per report. -/
def sessionSeqNums : Session → Nat → List Nat
  | _, 0 => []
  | s, n + 1 =>
    let (v, s2) := s.next
    v :: sessionSeqNums s2 n

/-! ### Polling transport: serialization and compression (modelled from the spec)

The HTTP sender is not among the given sources; `TestHTTPClientCompression`
evidences its contract: with compression enabled the request carries a
`Content-Encoding: gzip` header and a gzip-compressed protobuf body that
decodes to the intended `AgentToServer` report. -/

/-- A byte sequence on the wire. -/
abbrev Bytes := List Nat

/-- The outbound Agent Report (`protobufs.AgentToServer`), reduced to the
fields the transport claims observe. -/
structure AgentToServer where
  sequenceNum : Nat
  descriptionHash : Nat
  deriving DecidableEq, Repr

/-- Modelled from the spec: the wire serialization (protobuf marshalling) of an
Agent Report, an injective encoding into bytes. -/
def marshalAgentToServer (m : AgentToServer) : Bytes :=
  [m.sequenceNum, m.descriptionHash]

/-- Modelled from the spec: wire deserialization, the inverse of
`marshalAgentToServer`; fails on malformed bytes. -/
def unmarshalAgentToServer : Bytes → Option AgentToServer
  | [s, d] => some { sequenceNum := s, descriptionHash := d }
  | _ => none

/-- Modelled from the spec: gzip compression of a payload, abstracted as an
invertible coding that prepends the gzip magic bytes. -/
def gzipCompress (b : Bytes) : Bytes := 31 :: 139 :: b

/-- Modelled from the spec: gzip decompression, the inverse of `gzipCompress`;
fails when the magic bytes are absent. -/
def gzipDecompress : Bytes → Option Bytes
  | 31 :: 139 :: b => some b
  | _ => none

/-- An outbound HTTP request as the transport claims observe it: the optional
`Content-Encoding` header and the body. -/
structure HTTPRequest where
  contentEncoding : Option String
  body : Bytes
  deriving DecidableEq, Repr

/-- Modelled from the spec: the polling sender builds one request per exchange;
with compression enabled it declares `gzip` in the `Content-Encoding` header
and gzip-compresses the serialized report, otherwise it sends the serialized
report with no encoding header. -/
def buildRequest (enableCompression : Bool) (report : AgentToServer) : HTTPRequest :=
  if enableCompression then
    { contentEncoding := some "gzip", body := gzipCompress (marshalAgentToServer report) }
  else
    { contentEncoding := none, body := marshalAgentToServer report }

/-! ### Session Engine: server error classification (modelled from the spec)

The engine is not among the given sources; the `Callbacks.OnError` doc
comment documents the contract: "The client handles the
ErrorResponse_UNAVAILABLE case internally by performing retries as necessary",
every other server error is surfaced for logging only. -/

/-- The engine-side outcome of receiving one server error response. -/
structure ErrorOutcome where
  surfacedToOnError : Option ServerErrorResponse
  retriedOnSchedule : Bool
  autoRemediation : Bool
  deriving DecidableEq, Repr

/-- Modelled from the spec: Session Engine handling of a server error response.
An `unavailable` classification is retried on the normal schedule and never
surfaced; any other classification is surfaced to `OnError` for observability
only, with no automatic remediation. -/
def handleServerError (e : ServerErrorResponse) : ErrorOutcome :=
  match e.t with
  | .unavailable =>
    { surfacedToOnError := none, retriedOnSchedule := true, autoRemediation := false }
  | _ =>
    { surfacedToOnError := some e, retriedOnSchedule := false, autoRemediation := false }

/-! ### Connection-settings offers (modelled from the spec)

The engine code is absent; the `Callbacks.OnOpampConnectionSettings` doc
comment documents the round trip: handler acceptance is followed by a
reconnection attempt; only when both succeed are the settings adopted and the
"accepted" notification fired; otherwise the prior settings stay and a
rejection is recorded for the next report. -/

/-- Connection-settings state of one channel of the Session. -/
structure ConnState where
  current : ConnectionSettings
  acceptedNotifications : List ConnectionSettings
  rejections : List ConnectionSettings
  deriving DecidableEq, Repr

/-- Modelled from the spec: processing one connection-settings offer.
`handlerResult` is what the embedder's handler returned (`none` accepts);
`reconnectOk` is whether reconnection with the new settings succeeded (it is
only attempted when the handler accepted). -/
def dispatchConnectionSettings (st : ConnState) (offered : ConnectionSettings)
    (handlerResult : GoError) (reconnectOk : Bool) : ConnState :=
  match handlerResult with
  | none =>
    if reconnectOk then
      { current := offered
        acceptedNotifications := st.acceptedNotifications ++ [offered]
        rejections := st.rejections }
    else
      { st with rejections := st.rejections ++ [offered] }
  | some _ => { st with rejections := st.rejections ++ [offered] }

/-! ### Agent identification (modelled from the spec)

The engine code is absent; the `Callbacks.OnAgentIdentification` doc comment
documents the contract: on success the Agent adopts the new id for all
further communication, on failure the handler returns an error. -/

/-- The outcome of dispatching one agent-identification instruction. -/
structure IdentOutcome where
  identity : AgentIdentification
  surfacedErrors : List Err
  handlerCalls : Nat
  retried : Bool
  deriving DecidableEq, Repr

/-- Modelled from the spec: `dispatchAgentIdentification(newId)` invokes the
handler once, synchronously; on success the Session adopts the new identity,
on failure the identity is unchanged and the error is surfaced through error
reporting only, with no retry. -/
def dispatchAgentIdentification (cur newId : AgentIdentification)
    (handlerResult : GoError) : IdentOutcome :=
  match handlerResult with
  | none => { identity := newId, surfacedErrors := [], handlerCalls := 1, retried := false }
  | some e => { identity := cur, surfacedErrors := [e], handlerCalls := 1, retried := false }

/-! ## Theorems -/

/-- Claim C1: for every slot carrying server-supplied state (for the
remote-config slot, read `α := AgentRemoteConfig`), at most one handler
invocation is active at any time; if two remote-config instructions arrive
while the first `OnRemoteConfig` call has not returned, exactly one further
handler invocation occurs after it completes, carrying the newest payload,
and the intermediate payload is dropped, never replayed. -/
theorem slot_single_flight_last_write_wins {α : Type} (a b c : α) :
    (∀ s : SlotState α, s.activeCount ≤ 1) ∧
    slotRun (SlotState.inFlight a)
        [SlotEvent.recv b, SlotEvent.recv c, SlotEvent.complete] =
      (SlotState.inFlight c, [c]) ∧
    slotRun SlotState.idle
        [SlotEvent.recv a, SlotEvent.recv b, SlotEvent.recv c,
         SlotEvent.complete, SlotEvent.complete] =
      (SlotState.idle, [a, c]) := by
  refine ⟨fun s => ?_, rfl, rfl⟩
  cases s <;> simp [SlotState.activeCount]

/-- The sequence numbers of `n` reports from counter `k` are `k, k+1, …`. -/
theorem sessionSeqNums_eq_range_from (n k : Nat) :
    sessionSeqNums { seqCounter := k } n = List.range' k n := by
  induction n generalizing k with
  | zero => rfl
  | succ n ih => simp [sessionSeqNums, Session.next, List.range', ih]

/-- Claim C2: within one Session, the sequence numbers attached to `n`
successive outbound Agent Reports form the contiguous series `0, 1, …, n-1`:
the first report carries 0 and every position `i` carries exactly `i`, with
no gaps and no repeats; a fresh Session restarts from 0. -/
theorem session_reports_contiguous_from_zero (n : Nat) :
    sessionSeqNums newSession n = List.range n ∧
    (∀ i, i < n → (sessionSeqNums newSession n)[i]? = some i) := by
  have h : sessionSeqNums newSession n = List.range n := by
    rw [List.range_eq_range']
    exact sessionSeqNums_eq_range_from n 0
  refine ⟨h, fun i hi => ?_⟩
  rw [h]
  exact List.getElem?_range hi

/-- Witness for C2 at `n = 3`, `i = 1`. -/
theorem session_reports_contiguous_from_zero_witness :
    sessionSeqNums newSession 3 = List.range 3 ∧
    (sessionSeqNums newSession 3)[1]? = some 1 :=
  ⟨(session_reports_contiguous_from_zero 3).1,
   (session_reports_contiguous_from_zero 3).2 1 (by decide)⟩

/-- Counterexample to claim C3 as stated: with `GetEffectiveConfigFunc` unset,
`GetEffectiveConfig` returns the nil (`none`) effective config, not a non-nil
empty one (and a nil error, with no call performed). -/
theorem getEffectiveConfig_unset_nil_counterexample :
    CallbacksStruct.GetEffectiveConfig {} 0 = ([], none, none) ∧
    (CallbacksStruct.GetEffectiveConfig {} 0).2.1 = none :=
  ⟨rfl, rfl⟩

/-- Claim C3 (amended): for every `CallbacksStruct` whose
`GetEffectiveConfigFunc` field is unset, `GetEffectiveConfig` performs no call
and returns the nil effective config and a nil error — it is total, never a
crash. -/
theorem getEffectiveConfig_unset_default (c : CallbacksStruct)
    (h : c.GetEffectiveConfigFunc = none) (ctx : Ctx) :
    c.GetEffectiveConfig ctx = ([], none, none) := by
  simp [CallbacksStruct.GetEffectiveConfig, h]

/-- Witness for the amended C3 at the zero-value struct. -/
theorem getEffectiveConfig_unset_default_witness :
    CallbacksStruct.GetEffectiveConfig {} 0 = ([], none, none) :=
  getEffectiveConfig_unset_default {} rfl 0

/-- Claim C4: for every `CallbacksStruct` and every callback kind, if the
corresponding function-valued field is unset (`none`), invoking that callback
performs no call (empty effect trace), does not panic (total function), and
returns the well-formed empty default for its result type (Go zero values:
nil pointers, `false`, nil errors). -/
theorem callbacks_unset_is_noop (c : CallbacksStruct) (ctx : Ctx) (e : Err)
    (se : ServerErrorResponse) (rc : AgentRemoteConfig) (st : RemoteConfigStatus)
    (cs : ConnectionSettings) (tt : OwnTelemetryType) (nm : String)
    (pk : PackagesAvailable) (sy : PackagesSyncer) (aid : AgentIdentification)
    (cmd : ServerToAgentCommand) :
    (c.OnConnectFunc = none → c.OnConnect = []) ∧
    (c.OnConnectFailedFunc = none → c.OnConnectFailed e = []) ∧
    (c.OnErrorFunc = none → c.OnError se = []) ∧
    (c.OnRemoteConfigFunc = none → c.OnRemoteConfig ctx rc = ([], none, false, none)) ∧
    (c.SaveRemoteConfigStatusFunc = none → c.SaveRemoteConfigStatus ctx st = []) ∧
    (c.GetEffectiveConfigFunc = none → c.GetEffectiveConfig ctx = ([], none, none)) ∧
    (c.OnOpampConnectionSettingsFunc = none →
      c.OnOpampConnectionSettings ctx cs = ([], none)) ∧
    (c.OnOpampConnectionSettingsAcceptedFunc = none →
      c.OnOpampConnectionSettingsAccepted cs = []) ∧
    (c.OnOwnTelemetryConnectionSettingsFunc = none →
      c.OnOwnTelemetryConnectionSettings ctx tt cs = ([], none)) ∧
    (c.OnOtherConnectionSettingsFunc = none →
      c.OnOtherConnectionSettings ctx nm cs = ([], none)) ∧
    (c.OnPackagesAvailableFunc = none → c.OnPackagesAvailable ctx pk sy = ([], none)) ∧
    (c.OnAgentIdentificationFunc = none → c.OnAgentIdentification ctx aid = ([], none)) ∧
    (c.OnCommandFunc = none → c.OnCommand cmd = ([], none)) :=
  ⟨fun h => by simp [CallbacksStruct.OnConnect, h],
   fun h => by simp [CallbacksStruct.OnConnectFailed, h],
   fun h => by simp [CallbacksStruct.OnError, h],
   fun h => by simp [CallbacksStruct.OnRemoteConfig, h],
   fun h => by simp [CallbacksStruct.SaveRemoteConfigStatus, h],
   fun h => by simp [CallbacksStruct.GetEffectiveConfig, h],
   fun h => by simp [CallbacksStruct.OnOpampConnectionSettings, h],
   fun h => by simp [CallbacksStruct.OnOpampConnectionSettingsAccepted, h],
   fun h => by simp [CallbacksStruct.OnOwnTelemetryConnectionSettings, h],
   fun h => by simp [CallbacksStruct.OnOtherConnectionSettings, h],
   fun h => by simp [CallbacksStruct.OnPackagesAvailable, h],
   fun h => by simp [CallbacksStruct.OnAgentIdentification, h],
   fun h => by simp [CallbacksStruct.OnCommand, h]⟩

/-- Witness for C4 at the zero-value struct (every field unset). -/
theorem callbacks_unset_is_noop_witness :
    CallbacksStruct.OnConnect {} = [] ∧
    CallbacksStruct.OnConnectFailed {} "e" = [] ∧
    CallbacksStruct.OnError {} ⟨.unknown, 0⟩ = [] ∧
    CallbacksStruct.OnRemoteConfig {} 0 ⟨1⟩ = ([], none, false, none) ∧
    CallbacksStruct.SaveRemoteConfigStatus {} 0 ⟨2⟩ = [] ∧
    CallbacksStruct.GetEffectiveConfig {} 0 = ([], none, none) ∧
    CallbacksStruct.OnOpampConnectionSettings {} 0 ⟨3⟩ = ([], none) ∧
    CallbacksStruct.OnOpampConnectionSettingsAccepted {} ⟨3⟩ = [] ∧
    CallbacksStruct.OnOwnTelemetryConnectionSettings {} 0 .ownMetrics ⟨3⟩ = ([], none) ∧
    CallbacksStruct.OnOtherConnectionSettings {} 0 "dest" ⟨3⟩ = ([], none) ∧
    CallbacksStruct.OnPackagesAvailable {} 0 ⟨4⟩ ⟨5⟩ = ([], none) ∧
    CallbacksStruct.OnAgentIdentification {} 0 ⟨6⟩ = ([], none) ∧
    CallbacksStruct.OnCommand {} ⟨7⟩ = ([], none) := by
  have h := callbacks_unset_is_noop {} 0 "e" ⟨.unknown, 0⟩ ⟨1⟩ ⟨2⟩ ⟨3⟩ .ownMetrics "dest"
    ⟨4⟩ ⟨5⟩ ⟨6⟩ ⟨7⟩
  exact ⟨h.1 rfl, h.2.1 rfl, h.2.2.1 rfl, h.2.2.2.1 rfl, h.2.2.2.2.1 rfl,
    h.2.2.2.2.2.1 rfl, h.2.2.2.2.2.2.1 rfl, h.2.2.2.2.2.2.2.1 rfl,
    h.2.2.2.2.2.2.2.2.1 rfl, h.2.2.2.2.2.2.2.2.2.1 rfl,
    h.2.2.2.2.2.2.2.2.2.2.1 rfl, h.2.2.2.2.2.2.2.2.2.2.2.1 rfl,
    h.2.2.2.2.2.2.2.2.2.2.2.2 rfl⟩

/-- Claim C9: for every `CallbacksStruct` whose function field for a given
callback kind is set, invoking that callback forwards the arguments unchanged
to the stored function and returns exactly what that function returns — the
adapter adds and alters nothing. -/
theorem callbacks_set_forwards (c : CallbacksStruct) (ctx : Ctx) (e : Err)
    (se : ServerErrorResponse) (rc : AgentRemoteConfig) (st : RemoteConfigStatus)
    (cs : ConnectionSettings) (tt : OwnTelemetryType) (nm : String)
    (pk : PackagesAvailable) (sy : PackagesSyncer) (aid : AgentIdentification)
    (cmd : ServerToAgentCommand)
    (f1 : Unit → Effect) (f2 : Err → Effect) (f3 : ServerErrorResponse → Effect)
    (f4 : Ctx → AgentRemoteConfig → Effect × Option EffectiveConfig × Bool × GoError)
    (f5 : Ctx → RemoteConfigStatus → Effect)
    (f6 : Ctx → Effect × Option EffectiveConfig × GoError)
    (f7 : Ctx → ConnectionSettings → Effect × GoError)
    (f8 : ConnectionSettings → Effect)
    (f9 : Ctx → OwnTelemetryType → ConnectionSettings → Effect × GoError)
    (f10 : Ctx → String → ConnectionSettings → Effect × GoError)
    (f11 : Ctx → PackagesAvailable → PackagesSyncer → Effect × GoError)
    (f12 : Ctx → AgentIdentification → Effect × GoError)
    (f13 : ServerToAgentCommand → Effect × GoError) :
    (c.OnConnectFunc = some f1 → c.OnConnect = f1 ()) ∧
    (c.OnConnectFailedFunc = some f2 → c.OnConnectFailed e = f2 e) ∧
    (c.OnErrorFunc = some f3 → c.OnError se = f3 se) ∧
    (c.OnRemoteConfigFunc = some f4 → c.OnRemoteConfig ctx rc = f4 ctx rc) ∧
    (c.SaveRemoteConfigStatusFunc = some f5 → c.SaveRemoteConfigStatus ctx st = f5 ctx st) ∧
    (c.GetEffectiveConfigFunc = some f6 → c.GetEffectiveConfig ctx = f6 ctx) ∧
    (c.OnOpampConnectionSettingsFunc = some f7 →
      c.OnOpampConnectionSettings ctx cs = f7 ctx cs) ∧
    (c.OnOpampConnectionSettingsAcceptedFunc = some f8 →
      c.OnOpampConnectionSettingsAccepted cs = f8 cs) ∧
    (c.OnOwnTelemetryConnectionSettingsFunc = some f9 →
      c.OnOwnTelemetryConnectionSettings ctx tt cs = f9 ctx tt cs) ∧
    (c.OnOtherConnectionSettingsFunc = some f10 →
      c.OnOtherConnectionSettings ctx nm cs = f10 ctx nm cs) ∧
    (c.OnPackagesAvailableFunc = some f11 → c.OnPackagesAvailable ctx pk sy = f11 ctx pk sy) ∧
    (c.OnAgentIdentificationFunc = some f12 → c.OnAgentIdentification ctx aid = f12 ctx aid) ∧
    (c.OnCommandFunc = some f13 → c.OnCommand cmd = f13 cmd) :=
  ⟨fun h => by simp [CallbacksStruct.OnConnect, h],
   fun h => by simp [CallbacksStruct.OnConnectFailed, h],
   fun h => by simp [CallbacksStruct.OnError, h],
   fun h => by simp [CallbacksStruct.OnRemoteConfig, h],
   fun h => by simp [CallbacksStruct.SaveRemoteConfigStatus, h],
   fun h => by simp [CallbacksStruct.GetEffectiveConfig, h],
   fun h => by simp [CallbacksStruct.OnOpampConnectionSettings, h],
   fun h => by simp [CallbacksStruct.OnOpampConnectionSettingsAccepted, h],
   fun h => by simp [CallbacksStruct.OnOwnTelemetryConnectionSettings, h],
   fun h => by simp [CallbacksStruct.OnOtherConnectionSettings, h],
   fun h => by simp [CallbacksStruct.OnPackagesAvailable, h],
   fun h => by simp [CallbacksStruct.OnAgentIdentification, h],
   fun h => by simp [CallbacksStruct.OnCommand, h]⟩

/-- A callback set with every field present, used to exercise forwarding. -/
def sampleCallbacks : CallbacksStruct where
  OnConnectFunc := some fun _ => [1]
  OnConnectFailedFunc := some fun e => [e.length]
  OnErrorFunc := some fun se => [se.details]
  OnRemoteConfigFunc := some fun ctx rc => ([ctx, rc.val], some ⟨rc.val⟩, true, none)
  SaveRemoteConfigStatusFunc := some fun ctx st => [ctx, st.val]
  GetEffectiveConfigFunc := some fun ctx => ([ctx], some ⟨7⟩, none)
  OnOpampConnectionSettingsFunc := some fun ctx cs => ([ctx, cs.val], some "reject")
  OnOpampConnectionSettingsAcceptedFunc := some fun cs => [cs.val]
  OnOwnTelemetryConnectionSettingsFunc := some fun ctx _ cs => ([ctx, cs.val], none)
  OnOtherConnectionSettingsFunc := some fun ctx nm cs => ([ctx, nm.length, cs.val], none)
  OnPackagesAvailableFunc := some fun ctx pk sy => ([ctx, pk.val, sy.val], none)
  OnAgentIdentificationFunc := some fun ctx aid => ([ctx, aid.newInstanceUid], none)
  OnCommandFunc := some fun cmd => ([cmd.val], none)

/-- Witness for C9 at `sampleCallbacks`. -/
theorem callbacks_set_forwards_witness :
    CallbacksStruct.OnConnect sampleCallbacks = [1] ∧
    CallbacksStruct.OnConnectFailed sampleCallbacks "ab" = [2] ∧
    CallbacksStruct.OnError sampleCallbacks ⟨.badRequest, 9⟩ = [9] ∧
    CallbacksStruct.OnRemoteConfig sampleCallbacks 5 ⟨6⟩ = ([5, 6], some ⟨6⟩, true, none) ∧
    CallbacksStruct.SaveRemoteConfigStatus sampleCallbacks 5 ⟨8⟩ = [5, 8] ∧
    CallbacksStruct.GetEffectiveConfig sampleCallbacks 5 = ([5], some ⟨7⟩, none) ∧
    CallbacksStruct.OnOpampConnectionSettings sampleCallbacks 5 ⟨3⟩ =
      ([5, 3], some "reject") ∧
    CallbacksStruct.OnOpampConnectionSettingsAccepted sampleCallbacks ⟨3⟩ = [3] ∧
    CallbacksStruct.OnOwnTelemetryConnectionSettings sampleCallbacks 5 .ownLogs ⟨3⟩ =
      ([5, 3], none) ∧
    CallbacksStruct.OnOtherConnectionSettings sampleCallbacks 5 "xyz" ⟨3⟩ =
      ([5, 3, 3], none) ∧
    CallbacksStruct.OnPackagesAvailable sampleCallbacks 5 ⟨4⟩ ⟨2⟩ = ([5, 4, 2], none) ∧
    CallbacksStruct.OnAgentIdentification sampleCallbacks 5 ⟨6⟩ = ([5, 6], none) ∧
    CallbacksStruct.OnCommand sampleCallbacks ⟨7⟩ = ([7], none) := by
  have h := callbacks_set_forwards sampleCallbacks 5 "ab" ⟨.badRequest, 9⟩ ⟨6⟩ ⟨8⟩ ⟨3⟩
    .ownLogs "xyz" ⟨4⟩ ⟨2⟩ ⟨6⟩ ⟨7⟩
    (fun _ => [1]) (fun e => [e.length]) (fun se => [se.details])
    (fun ctx rc => ([ctx, rc.val], some ⟨rc.val⟩, true, none))
    (fun ctx st => [ctx, st.val]) (fun ctx => ([ctx], some ⟨7⟩, none))
    (fun ctx cs => ([ctx, cs.val], some "reject")) (fun cs => [cs.val])
    (fun ctx _ cs => ([ctx, cs.val], none))
    (fun ctx nm cs => ([ctx, nm.length, cs.val], none))
    (fun ctx pk sy => ([ctx, pk.val, sy.val], none))
    (fun ctx aid => ([ctx, aid.newInstanceUid], none)) (fun cmd => ([cmd.val], none))
  exact ⟨h.1 rfl, h.2.1 rfl, h.2.2.1 rfl, h.2.2.2.1 rfl, h.2.2.2.2.1 rfl,
    h.2.2.2.2.2.1 rfl, h.2.2.2.2.2.2.1 rfl, h.2.2.2.2.2.2.2.1 rfl,
    h.2.2.2.2.2.2.2.2.1 rfl, h.2.2.2.2.2.2.2.2.2.1 rfl,
    h.2.2.2.2.2.2.2.2.2.2.1 rfl, h.2.2.2.2.2.2.2.2.2.2.2.1 rfl,
    h.2.2.2.2.2.2.2.2.2.2.2.2 rfl⟩

/-- Claim C10: for every error-returning callback (`OnOpampConnectionSettings`,
`OnOwnTelemetryConnectionSettings`, `OnOtherConnectionSettings`,
`OnPackagesAvailable`, `OnAgentIdentification`, `OnCommand`) whose function
field is unset, the invocation returns a nil error — so an embedder omitting
these handlers implicitly accepts every settings offer, package notification,
identity change and command. -/
theorem callbacks_unset_error_callbacks_return_nil (c : CallbacksStruct) (ctx : Ctx)
    (cs : ConnectionSettings) (tt : OwnTelemetryType) (nm : String)
    (pk : PackagesAvailable) (sy : PackagesSyncer) (aid : AgentIdentification)
    (cmd : ServerToAgentCommand) :
    (c.OnOpampConnectionSettingsFunc = none →
      (c.OnOpampConnectionSettings ctx cs).2 = none) ∧
    (c.OnOwnTelemetryConnectionSettingsFunc = none →
      (c.OnOwnTelemetryConnectionSettings ctx tt cs).2 = none) ∧
    (c.OnOtherConnectionSettingsFunc = none →
      (c.OnOtherConnectionSettings ctx nm cs).2 = none) ∧
    (c.OnPackagesAvailableFunc = none → (c.OnPackagesAvailable ctx pk sy).2 = none) ∧
    (c.OnAgentIdentificationFunc = none → (c.OnAgentIdentification ctx aid).2 = none) ∧
    (c.OnCommandFunc = none → (c.OnCommand cmd).2 = none) :=
  ⟨fun h => by simp [CallbacksStruct.OnOpampConnectionSettings, h],
   fun h => by simp [CallbacksStruct.OnOwnTelemetryConnectionSettings, h],
   fun h => by simp [CallbacksStruct.OnOtherConnectionSettings, h],
   fun h => by simp [CallbacksStruct.OnPackagesAvailable, h],
   fun h => by simp [CallbacksStruct.OnAgentIdentification, h],
   fun h => by simp [CallbacksStruct.OnCommand, h]⟩

/-- Witness for C10 at the zero-value struct. -/
theorem callbacks_unset_error_callbacks_return_nil_witness :
    (CallbacksStruct.OnOpampConnectionSettings {} 0 ⟨1⟩).2 = none ∧
    (CallbacksStruct.OnOwnTelemetryConnectionSettings {} 0 .ownTraces ⟨1⟩).2 = none ∧
    (CallbacksStruct.OnOtherConnectionSettings {} 0 "d" ⟨1⟩).2 = none ∧
    (CallbacksStruct.OnPackagesAvailable {} 0 ⟨2⟩ ⟨3⟩).2 = none ∧
    (CallbacksStruct.OnAgentIdentification {} 0 ⟨4⟩).2 = none ∧
    (CallbacksStruct.OnCommand {} ⟨5⟩).2 = none := by
  have h := callbacks_unset_error_callbacks_return_nil {} 0 ⟨1⟩ .ownTraces "d" ⟨2⟩ ⟨3⟩ ⟨4⟩ ⟨5⟩
  exact ⟨h.1 rfl, h.2.1 rfl, h.2.2.1 rfl, h.2.2.2.1 rfl, h.2.2.2.2.1 rfl, h.2.2.2.2.2 rfl⟩

/-- Claim C5: when compression is enabled, every outbound request declares the
gzip encoding in its `Content-Encoding` header and its body, once
decompressed, deserializes to a well-formed Agent Report identical to the one
sent uncompressed. -/
theorem compression_declares_encoding_and_roundtrips (report : AgentToServer) :
    (buildRequest true report).contentEncoding = some "gzip" ∧
    gzipDecompress (buildRequest true report).body = some (marshalAgentToServer report) ∧
    (gzipDecompress (buildRequest true report).body).bind unmarshalAgentToServer =
      some report ∧
    gzipDecompress (buildRequest true report).body = some (buildRequest false report).body := by
  refine ⟨rfl, ?_, ?_, ?_⟩ <;>
    cases report <;>
    simp [buildRequest, gzipCompress, gzipDecompress, marshalAgentToServer,
      unmarshalAgentToServer]

/-- Claim C6: a server error response classified `unavailable` is retried on
the normal schedule and never surfaced to `OnError`; every other server error
response is surfaced to `OnError` for observability only, with no automatic
remediation. -/
theorem server_error_classification (e : ServerErrorResponse) :
    (e.t = ServerErrorResponseType.unavailable →
      handleServerError e =
        { surfacedToOnError := none, retriedOnSchedule := true, autoRemediation := false }) ∧
    (e.t ≠ ServerErrorResponseType.unavailable →
      (handleServerError e).surfacedToOnError = some e ∧
      (handleServerError e).retriedOnSchedule = false ∧
      (handleServerError e).autoRemediation = false) := by
  obtain ⟨t, d⟩ := e
  cases t <;> simp [handleServerError]

/-- Witness for C6 at one transient and one non-transient error. -/
theorem server_error_classification_witness :
    handleServerError ⟨.unavailable, 0⟩ =
      { surfacedToOnError := none, retriedOnSchedule := true, autoRemediation := false } ∧
    (handleServerError ⟨.badRequest, 1⟩).surfacedToOnError = some ⟨.badRequest, 1⟩ :=
  ⟨(server_error_classification ⟨.unavailable, 0⟩).1 rfl,
   ((server_error_classification ⟨.badRequest, 1⟩).2 (by decide)).1⟩

/-- Claim C7: if the handler accepts a connection-settings offer and
reconnection succeeds, exactly one "accepted" notification fires, the previous
settings are discarded and subsequent reports use the new settings; if the
handler rejects it, or reconnection fails, the prior settings remain in effect
and a rejection is recorded for the next Agent Report. -/
theorem connection_settings_round_trip (st : ConnState) (offered : ConnectionSettings)
    (e : Err) (rok : Bool) :
    dispatchConnectionSettings st offered none true =
      { current := offered
        acceptedNotifications := st.acceptedNotifications ++ [offered]
        rejections := st.rejections } ∧
    (dispatchConnectionSettings st offered none true).acceptedNotifications.length =
      st.acceptedNotifications.length + 1 ∧
    dispatchConnectionSettings st offered (some e) rok =
      { st with rejections := st.rejections ++ [offered] } ∧
    dispatchConnectionSettings st offered none false =
      { st with rejections := st.rejections ++ [offered] } := by
  refine ⟨rfl, by simp [dispatchConnectionSettings], ?_, rfl⟩
  cases rok <;> rfl

/-- Claim C8: an agent-identification instruction invokes the handler exactly
once; on success the Session adopts the new identity for subsequent reports,
and on failure the identity is unchanged, the error is surfaced through error
reporting only, and there is no retry. -/
theorem agent_identification_dispatch (cur newId : AgentIdentification) (e : Err) :
    dispatchAgentIdentification cur newId none =
      { identity := newId, surfacedErrors := [], handlerCalls := 1, retried := false } ∧
    dispatchAgentIdentification cur newId (some e) =
      { identity := cur, surfacedErrors := [e], handlerCalls := 1, retried := false } :=
  ⟨rfl, rfl⟩
